import Mathlib

/-!
Shallow embedding of `src/audioteka-dl.py` (audioteka-dl, a personal
audiobook-backup CLI).

Modelling conventions:
* HTML pages are abstracted to the data the script extracts from them
  (BeautifulSoup queries become oracle fields of `Site`): the shelf page is
  the list of its shelf-item anchors, a detail page is the href of its
  localized download ("Pobierz") anchor (`none` when the anchor is absent,
  which in Python raises `AttributeError`).
* The network is the `Site` oracle; every HTTP request the script issues is
  recorded in a `Request` trace.
* The filesystem is an explicit `FS` value: an ordered list of
  (path, contents) files plus a list of directories.  Paths are plain
  strings joined with "/".
* Python exceptions are modelled as `Option String` error outcomes that
  abort the remaining statements, mirroring uncaught propagation.
* `urllib.parse.urlparse` / `parse_qsl` are embedded on character lists;
  percent-decoding and the "+"-to-space replacement of `parse_qsl` are
  modelled as the identity (no claim inspects encoded octets).
* tqdm progress output and the Content-Length header are not modelled: they
  affect only progress display, not file contents, requests or control flow
  (a malformed Content-Length would raise before the file is opened, which
  the HTTP-error path already covers).
-/

/-- Python `str.split(sep)` for a one-character separator, on char lists:
always returns at least one (possibly empty) piece. -/
def splitOnChar (sep : Char) : List Char → List (List Char)
  | [] => [[]]
  | c :: rest =>
      let r := splitOnChar sep rest
      if c = sep then [] :: r
      else
        match r with
        | [] => [[c]]
        | h :: t => (c :: h) :: t

/-- Python `needle in haystack` on char lists (contiguous substring). -/
def listContainsSub (hay needle : List Char) : Bool :=
  match hay with
  | [] => needle.isEmpty
  | _ :: t => needle.isPrefixOf hay || listContainsSub t needle

/-- Python `needle in haystack` for strings (used for the `b"shelf-item"`
login marker and for token-occurrence statements). -/
def containsSubstr (hay needle : String) : Bool :=
  listContainsSub hay.data needle.data

/-- Python `str.endswith(suffix)`. -/
def endsWithStr (s suffix : String) : Bool :=
  suffix.data.isSuffixOf s.data

/-- Python `*_, last = s.split("/")`: the trailing piece of a "/"-split
(`split` always yields at least one piece, so this is total). -/
def lastSegment (s : String) : String :=
  String.mk ((splitOnChar '/' s.data).getLastD [])

/-- The `path` and `query` components of `urllib.parse.urlparse`;
the other components are unused by the script. -/
structure UrlParts where
  path : String
  query : String
deriving DecidableEq, Repr

/-- Scheme characters accepted by `urllib.parse` after the leading letter. -/
def isSchemeChar (c : Char) : Bool :=
  c.isAlphanum || c = '+' || c = '-' || c = '.'

/-- Drop a leading `scheme:` when present (letter-initial run of scheme
characters before the first colon), as `urlsplit` does. -/
def dropScheme (s : List Char) : List Char :=
  let pre := s.takeWhile (· ≠ ':')
  let rest := s.dropWhile (· ≠ ':')
  match rest with
  | ':' :: rest' =>
      match pre with
      | [] => s
      | c :: _ => if c.isAlpha && pre.all isSchemeChar then rest' else s
  | _ => s

/-- Drop a leading `//netloc` (up to the next '/'), as `urlsplit` does. -/
def dropNetloc (s : List Char) : List Char :=
  match s with
  | '/' :: '/' :: rest => rest.dropWhile (· ≠ '/')
  | _ => s

/-- `urllib.parse.urlparse`, restricted to the `path` and `query` fields the
script reads; fragment, scheme and netloc are split off as in `urlsplit`. -/
def urlparse (url : String) : UrlParts :=
  let s := url.data.takeWhile (· ≠ '#')
  let beforeQ := s.takeWhile (· ≠ '?')
  let afterQ := s.dropWhile (· ≠ '?')
  let query := match afterQ with
    | '?' :: q => q
    | _ => []
  ⟨String.mk (dropNetloc (dropScheme beforeQ)), String.mk query⟩

/-- `urllib.parse.parse_qsl` with default arguments: split the query on '&',
split each field at its first '='; fields that are empty, lack '=' or have an
empty value are dropped (keep_blank_values=False).  Percent-decoding is
modelled as the identity. -/
def parse_qsl (query : String) : List (String × String) :=
  (splitOnChar '&' query.data).filterMap fun field =>
    match field with
    | [] => none
    | _ :: _ =>
        let name := field.takeWhile (· ≠ '=')
        match field.dropWhile (· ≠ '=') with
        | '=' :: value =>
            if value.isEmpty then none else some (String.mk name, String.mk value)
        | _ => none

/-- `Audiobook = namedtuple("Audiobook", ["id", "title"])`. -/
structure Audiobook where
  id : String
  title : String
deriving DecidableEq, Repr

/-- One shelf-item element of the shelf page, abstracted to its
`js-item-trunk8` anchor's `href` and `title` attributes. -/
structure ShelfAnchor where
  href : String
  title : String
deriving DecidableEq, Repr

/-- An HTTP response, abstracted to its status code and body bytes. -/
structure Response where
  status : Nat
  content : String
deriving DecidableEq, Repr

/-- The remote site as an oracle: what each page the script scrapes parses
to, and what each asset GET returns. -/
structure Site where
  /-- value of the `_token` input of the login form on the signin page -/
  loginFormToken : String
  /-- body of the response to the login POST, as a function of the
  submitted username and password -/
  loginResponse : String → String → String
  /-- the parsed `shelf-item` elements of `/pl/my-shelf`, in page order -/
  shelfItems : List ShelfAnchor
  /-- href of the "Pobierz" anchor on an audiobook's detail page
  (`none` models a missing anchor, an `AttributeError` in Python) -/
  detailAnchor : String → Option String
  /-- response to a streaming asset GET, by URL -/
  asset : String → Response

/-- An HTTP request issued through the session. -/
inductive Request where
  | get (url : String)
  | post (url : String) (payload : List (String × String))
deriving DecidableEq, Repr

/-- The filesystem: files as an ordered (path, contents) list in creation
order, plus the set of directories. -/
structure FS where
  files : List (String × String)
  dirs : List String
deriving DecidableEq, Repr

/-- `Path.exists()` for a destination file path. -/
def fileExists (fs : FS) (p : String) : Bool :=
  fs.files.any fun f => f.1 = p

/-- `open(dest, "wb")` followed by writing the whole body (the chunked tqdm
loop concatenates to the same bytes); only reached when the path is absent. -/
def writeFile (fs : FS) (p c : String) : FS :=
  { fs with files := fs.files ++ [(p, c)] }

/-- `Path.mkdir(exist_ok=True)`. -/
def mkdirExistOk (fs : FS) (d : String) : FS :=
  if fs.dirs.contains d then fs else { fs with dirs := fs.dirs ++ [d] }

def BASE_DOMAIN : String := "audioteka.com"

def loginPageUrl : String := "https://" ++ BASE_DOMAIN ++ "/pl/signin/login"

def loginCheckUrl : String := "https://" ++ BASE_DOMAIN ++ "/pl/user/login_check"

def myShelfUrl : String := "https://" ++ BASE_DOMAIN ++ "/pl/my-shelf"

def detailUrl (id : String) : String :=
  "https://" ++ BASE_DOMAIN ++ "/pl/my-shelf/audiobook/" ++ id

def coverUrl (id token : String) : String :=
  "https://tools." ++ BASE_DOMAIN ++ "/pl/cover/" ++ id ++ ".jpg?token=" ++ token

def cueUrl (id token : String) : String :=
  "https://fn." ++ BASE_DOMAIN ++ "/pl/app/info/audiobook/" ++ id ++ "/cue?token=" ++ token

def audioUrl (id : String) : String :=
  "https://" ++ BASE_DOMAIN ++ "/pl/audiobook/" ++ id ++ "/download"

/-- `AudiotekaClient.__init__` state: `is_authenticated = False`. -/
structure AudiotekaClient where
  is_authenticated : Bool
deriving DecidableEq, Repr

/-- The login marker: `b"shelf-item" in resp.content`. -/
def loginMarker : String := "shelf-item"

/-- `AudiotekaClient.login`: GET the signin page, POST the credential form,
set `is_authenticated` when the marker occurs in the response body.
Returns the updated client and the requests issued. -/
def login (site : Site) (username password : String) (c : AudiotekaClient) :
    AudiotekaClient × List Request :=
  let payload := [("_username", username), ("_password", password),
    ("_remember_me", "1"), ("_failure_path", "login"),
    ("_token", site.loginFormToken), ("login", "")]
  let content := site.loginResponse username password
  let c' :=
    if containsSubstr content loginMarker then { c with is_authenticated := true } else c
  (c', [Request.get loginPageUrl, Request.post loginCheckUrl payload])

/-- The body of the shelf-parsing `for` loop, with its accumulator list. -/
def shelfLoop : List ShelfAnchor → List Audiobook → List Audiobook
  | [], acc => acc
  | a :: rest, acc =>
      shelfLoop rest (acc ++ [⟨lastSegment a.href, a.title⟩])

/-- `AudiotekaClient.shelf`: GET `/pl/my-shelf`, build one Audiobook per
shelf-item element.  Returns the list and the requests issued. -/
def shelf (site : Site) : List Audiobook × List Request :=
  (shelfLoop site.shelfItems [], [Request.get myShelfUrl])

/-- Outcome of a statement block: the filesystem after it, the requests and
prints it issued, and `some e` when it raised exception `e`. -/
structure StepResult where
  fs : FS
  requests : List Request
  prints : List String
  error : Option String
deriving DecidableEq, Repr

/-- `AudiotekaClient._download_asset`: skip (with a notice) when the
destination exists; otherwise GET, `raise_for_status` (4xx/5xx), and only
then open and write the destination file. -/
def download_asset (site : Site) (url : String) (dest_file : String) (fs : FS) :
    StepResult :=
  if fileExists fs dest_file then
    ⟨fs, [], ["File " ++ dest_file ++ " already exists! Skipping!"], none⟩
  else
    let resp := site.asset url
    if 400 ≤ resp.status ∧ resp.status < 600 then
      ⟨fs, [Request.get url], [], some "HTTPError"⟩
    else
      ⟨writeFile fs dest_file resp.content, [Request.get url], [], none⟩

/-- The three `_download_asset` invocations of `download_audiobook`, in
source order: cover JPEG, cue sheet, audio. -/
def assetTargets (id token dir : String) : List (String × String) :=
  [ (coverUrl id token, dir ++ "/" ++ id ++ ".jpg"),
    (cueUrl id token, dir ++ "/" ++ id ++ ".cue"),
    (audioUrl id, dir ++ "/" ++ id ++ ".mp3") ]

/-- Run a sequence of `_download_asset` calls, aborting on a raised
exception as Python's uncaught propagation does. -/
def runAssets (site : Site) : List (String × String) → FS → StepResult
  | [], fs => ⟨fs, [], [], none⟩
  | (url, dest) :: rest, fs =>
      let r := download_asset site url dest fs
      match r.error with
      | some e => ⟨r.fs, r.requests, r.prints, some e⟩
      | none =>
          let r2 := runAssets site rest r.fs
          ⟨r2.fs, r.requests ++ r2.requests, r.prints ++ r2.prints, r2.error⟩

/-- `AudiotekaClient.download_audiobook`: GET the detail page, locate the
"Pobierz" anchor, skip samples, destructure `parse_qsl` into the single
`(_, token)` pair (ValueError otherwise), make the id-named subdirectory and
download the three assets. -/
def download_audiobook (site : Site) (audiobook : Audiobook) (dest_dir : String)
    (fs : FS) : StepResult :=
  let req := Request.get (detailUrl audiobook.id)
  match site.detailAnchor audiobook.id with
  | none => ⟨fs, [req], [], some "AttributeError"⟩
  | some href =>
      let download_link := urlparse href
      if endsWithStr download_link.path "/download-sample" then
        ⟨fs, [req],
          ["Audiobook " ++ audiobook.title ++ " is a sample - skipping..."], none⟩
      else
        match parse_qsl download_link.query with
        | [(_, token)] =>
            let dir := dest_dir ++ "/" ++ audiobook.id
            let fs1 := mkdirExistOk fs dir
            let r := runAssets site (assetTargets audiobook.id token dir) fs1
            ⟨r.fs, req :: r.requests, r.prints, r.error⟩
        | _ => ⟨fs, [req], [], some "ValueError"⟩

/-- The `for audiobook in audioteka.shelf` loop of `main`, printing the
status line then downloading, aborting on an uncaught exception. -/
def downloadLoop (site : Site) : List Audiobook → String → FS → StepResult
  | [], _, fs => ⟨fs, [], [], none⟩
  | ab :: rest, dest_dir, fs =>
      let pr := "-> Downloading " ++ "'" ++ ab.title ++ "'"
      let r := download_audiobook site ab dest_dir fs
      match r.error with
      | some e => ⟨r.fs, r.requests, pr :: r.prints, some e⟩
      | none =>
          let r2 := downloadLoop site rest dest_dir r.fs
          ⟨r2.fs, r.requests ++ r2.requests, (pr :: r.prints) ++ r2.prints, r2.error⟩

/-- Outcome of a whole run of `main` (configuration already resolved):
`exit = some c` is `return c`, `exit = none` is an uncaught exception. -/
structure RunResult where
  fs : FS
  requests : List Request
  prints : List String
  exit : Option Nat
deriving DecidableEq, Repr

/-- `main` after argument/prompt resolution: ensure the destination
directory, construct the client, log in; on authentication failure print the
error and return 1 without listing or downloading; otherwise iterate the
shelf and return 0. -/
def main_run (site : Site) (username password dest_dir : String) (fs : FS) :
    RunResult :=
  let fs0 := mkdirExistOk fs dest_dir
  let client : AudiotekaClient := ⟨false⟩
  let (client, loginReqs) := login site username password client
  if client.is_authenticated then
    let (books, shelfReqs) := shelf site
    let r := downloadLoop site books dest_dir fs0
    ⟨r.fs, loginReqs ++ shelfReqs ++ r.requests, r.prints,
      match r.error with
      | some _ => none
      | none => some 0⟩
  else
    ⟨fs0, loginReqs,
      ["Provided credentials are not valid :( Could not log in."], some 1⟩

/-- A concrete site for evaluation: login succeeds (marker present), one
shelf item, a non-sample detail page whose query is the single parameter
`token=abc`, and every asset GET answers 200. -/
def egSite : Site where
  loginFormToken := "csrf"
  loginResponse := fun _ _ => "page with a shelf-item element"
  shelfItems := [⟨"/pl/audiobook/123", "Foo"⟩]
  detailAnchor := fun _ => some "/pl/audiobook/123/download?token=abc"
  asset := fun _ => ⟨200, "DATA"⟩

/-- A concrete site whose login response lacks the marker. -/
def badLoginSite : Site where
  loginFormToken := "csrf"
  loginResponse := fun _ _ => "wrong credentials page"
  shelfItems := []
  detailAnchor := fun _ => none
  asset := fun _ => ⟨200, "DATA"⟩

/-- A concrete site whose detail page links a sample. -/
def sampleSite : Site where
  loginFormToken := "csrf"
  loginResponse := fun _ _ => "page with a shelf-item element"
  shelfItems := [⟨"/pl/audiobook/123", "Foo"⟩]
  detailAnchor := fun _ => some "/pl/audiobook/123/download-sample"
  asset := fun _ => ⟨200, "DATA"⟩

/-- A concrete site whose detail-page download link has two query
parameters. -/
def twoParamSite : Site where
  loginFormToken := "csrf"
  loginResponse := fun _ _ => "page with a shelf-item element"
  shelfItems := [⟨"/pl/audiobook/123", "Foo"⟩]
  detailAnchor := fun _ => some "/pl/audiobook/123/download?a=1&b=2"
  asset := fun _ => ⟨200, "DATA"⟩

/-- A concrete site whose asset GETs answer 404. -/
def errSite : Site where
  loginFormToken := "csrf"
  loginResponse := fun _ _ => "page with a shelf-item element"
  shelfItems := [⟨"/pl/audiobook/123", "Foo"⟩]
  detailAnchor := fun _ => some "/pl/audiobook/123/download?token=abc"
  asset := fun _ => ⟨404, "not found"⟩

/-- The empty filesystem. -/
def emptyFS : FS := ⟨[], []⟩

/-- A filesystem already holding all three assets of audiobook 123 under
destination root "dest". -/
def fullFS : FS :=
  ⟨[("dest/123/123.jpg", "J"), ("dest/123/123.cue", "C"),
    ("dest/123/123.mp3", "M")], ["dest", "dest/123"]⟩

example :
    parse_qsl (urlparse "/pl/audiobook/123/download?token=abc").query
      = [("token", "abc")] := by decide

example :
    endsWithStr (urlparse "https://audioteka.com/pl/x/download-sample?y=1").path
      "/download-sample" = true := by decide

example : urlparse "https://audioteka.com/pl/a/b?q=1#f" = ⟨"/pl/a/b", "q=1"⟩ := by
  decide

example : parse_qsl "a=1&b=2" = [("a", "1"), ("b", "2")] := by decide

example : parse_qsl "" = [] := by decide

example : parse_qsl "token" = [] := by decide

example : parse_qsl "token=" = [] := by decide

example : lastSegment "/pl/audiobook/xyz" = "xyz" := by decide

/-! ### Helper lemmas -/

theorem str_append_assoc (a b c : String) : a ++ b ++ c = a ++ (b ++ c) :=
  String.ext (by simp [String.data_append])

theorem str_append_left_cancel {s a b : String} (h : s ++ a = s ++ b) : a = b := by
  have hd : s.data ++ a.data = s.data ++ b.data := by
    have := congrArg String.data h
    simpa [String.data_append] using this
  exact String.ext (List.append_cancel_left hd)

theorem str_append_right_ne (s : String) {a b : String} (h : a ≠ b) :
    s ++ a ≠ s ++ b :=
  fun he => h (str_append_left_cancel he)

theorem mkdirExistOk_files (fs : FS) (d : String) :
    (mkdirExistOk fs d).files = fs.files := by
  unfold mkdirExistOk
  split <;> rfl

theorem fileExists_mkdirExistOk (fs : FS) (d p : String) :
    fileExists (mkdirExistOk fs d) p = fileExists fs p := by
  unfold fileExists
  rw [mkdirExistOk_files]

theorem fileExists_writeFile (fs : FS) (p c q : String) :
    fileExists (writeFile fs p c) q = (fileExists fs q || decide (p = q)) := by
  simp [fileExists, writeFile, List.any_append]

theorem isPrefixOf_self (l : List Char) : l.isPrefixOf l = true := by
  induction l with
  | nil => rfl
  | cons c t ih => simp [List.isPrefixOf, ih]

theorem listContainsSub_append_right (a b : List Char) :
    listContainsSub (a ++ b) b = true := by
  induction a with
  | nil =>
      cases b with
      | nil => rfl
      | cons c t => simp [listContainsSub, isPrefixOf_self]
  | cons c t ih => simp [listContainsSub, ih]

theorem containsSubstr_append_right (a b : String) :
    containsSubstr (a ++ b) b = true := by
  unfold containsSubstr
  rw [String.data_append]
  exact listContainsSub_append_right a.data b.data

/-- When the destination file already exists, `_download_asset` is a pure
skip: same filesystem, no request, one notice, no exception. -/
theorem download_asset_skip (site : Site) (url dest_file : String) (fs : FS)
    (h : fileExists fs dest_file = true) :
    download_asset site url dest_file fs
      = ⟨fs, [], ["File " ++ dest_file ++ " already exists! Skipping!"], none⟩ := by
  unfold download_asset
  rw [h]
  rfl

/-- When the destination is absent and the GET status is non-error,
`_download_asset` issues the GET and appends the body as a new file. -/
theorem download_asset_fetch (site : Site) (url dest_file : String) (fs : FS)
    (h : fileExists fs dest_file = false)
    (hs : ¬(400 ≤ (site.asset url).status ∧ (site.asset url).status < 600)) :
    download_asset site url dest_file fs
      = ⟨writeFile fs dest_file (site.asset url).content,
          [Request.get url], [], none⟩ := by
  unfold download_asset
  rw [h]
  simp only [Bool.false_eq_true, if_false]
  rw [if_neg hs]

/-- When the destination is absent and the GET status is a 4xx/5xx,
`_download_asset` raises after the GET without touching the filesystem. -/
theorem download_asset_raise (site : Site) (url dest_file : String) (fs : FS)
    (h : fileExists fs dest_file = false)
    (hs : 400 ≤ (site.asset url).status ∧ (site.asset url).status < 600) :
    download_asset site url dest_file fs
      = ⟨fs, [Request.get url], [], some "HTTPError"⟩ := by
  unfold download_asset
  rw [h]
  simp only [Bool.false_eq_true, if_false]
  rw [if_pos hs]

theorem download_asset_error_cases (site : Site) (url dest_file : String) (fs : FS) :
    (download_asset site url dest_file fs).error = none
      ∨ (download_asset site url dest_file fs).error = some "HTTPError" := by
  simp only [download_asset]
  split
  · exact Or.inl rfl
  · split
    · exact Or.inr rfl
    · exact Or.inl rfl

theorem runAssets_no_valueError (site : Site) (ts : List (String × String)) (fs : FS) :
    (runAssets site ts fs).error ≠ some "ValueError" := by
  induction ts generalizing fs with
  | nil => simp [runAssets]
  | cons t rest ih =>
      obtain ⟨url, dest⟩ := t
      rcases download_asset_error_cases site url dest fs with h | h <;>
        simp [runAssets, h, ih]

/-- Unfolding of `download_audiobook` on a non-sample page whose query has
exactly one parameter: detail GET, then mkdir, then the three asset calls. -/
theorem download_audiobook_run (site : Site) (ab : Audiobook) (dest_dir : String)
    (fs : FS) (href n token : String)
    (hA : site.detailAnchor ab.id = some href)
    (hS : endsWithStr (urlparse href).path "/download-sample" = false)
    (hQ : parse_qsl (urlparse href).query = [(n, token)]) :
    download_audiobook site ab dest_dir fs =
      ⟨(runAssets site (assetTargets ab.id token (dest_dir ++ "/" ++ ab.id))
          (mkdirExistOk fs (dest_dir ++ "/" ++ ab.id))).fs,
        Request.get (detailUrl ab.id)
          :: (runAssets site (assetTargets ab.id token (dest_dir ++ "/" ++ ab.id))
                (mkdirExistOk fs (dest_dir ++ "/" ++ ab.id))).requests,
        (runAssets site (assetTargets ab.id token (dest_dir ++ "/" ++ ab.id))
          (mkdirExistOk fs (dest_dir ++ "/" ++ ab.id))).prints,
        (runAssets site (assetTargets ab.id token (dest_dir ++ "/" ++ ab.id))
          (mkdirExistOk fs (dest_dir ++ "/" ++ ab.id))).error⟩ := by
  unfold download_audiobook
  rw [hA]
  simp only [hS, Bool.false_eq_true, if_false, hQ]

theorem jpg_ne_cue (s : String) : s ++ ".jpg" ≠ s ++ ".cue" :=
  str_append_right_ne s (by decide)

theorem jpg_ne_mp3 (s : String) : s ++ ".jpg" ≠ s ++ ".mp3" :=
  str_append_right_ne s (by decide)

theorem cue_ne_mp3 (s : String) : s ++ ".cue" ≠ s ++ ".mp3" :=
  str_append_right_ne s (by decide)

/-- A fresh full run of the three asset downloads: all destinations absent,
all statuses non-error ⇒ three GETs in source order, three files appended in
that order, no prints, no exception. -/
theorem runAssets_fresh (site : Site) (id token dir : String) (fs : FS)
    (hj : fileExists fs (dir ++ "/" ++ id ++ ".jpg") = false)
    (hc : fileExists fs (dir ++ "/" ++ id ++ ".cue") = false)
    (hm : fileExists fs (dir ++ "/" ++ id ++ ".mp3") = false)
    (s1 : ¬(400 ≤ (site.asset (coverUrl id token)).status
            ∧ (site.asset (coverUrl id token)).status < 600))
    (s2 : ¬(400 ≤ (site.asset (cueUrl id token)).status
            ∧ (site.asset (cueUrl id token)).status < 600))
    (s3 : ¬(400 ≤ (site.asset (audioUrl id)).status
            ∧ (site.asset (audioUrl id)).status < 600)) :
    runAssets site (assetTargets id token dir) fs =
      ⟨⟨fs.files
          ++ [(dir ++ "/" ++ id ++ ".jpg", (site.asset (coverUrl id token)).content),
              (dir ++ "/" ++ id ++ ".cue", (site.asset (cueUrl id token)).content),
              (dir ++ "/" ++ id ++ ".mp3", (site.asset (audioUrl id)).content)],
        fs.dirs⟩,
       [Request.get (coverUrl id token), Request.get (cueUrl id token),
        Request.get (audioUrl id)],
       [], none⟩ := by
  have hc1 : fileExists (writeFile fs (dir ++ "/" ++ id ++ ".jpg")
      (site.asset (coverUrl id token)).content) (dir ++ "/" ++ id ++ ".cue") = false := by
    rw [fileExists_writeFile, hc]
    simp [jpg_ne_cue]
  have hm1 : fileExists (writeFile fs (dir ++ "/" ++ id ++ ".jpg")
      (site.asset (coverUrl id token)).content) (dir ++ "/" ++ id ++ ".mp3") = false := by
    rw [fileExists_writeFile, hm]
    simp [jpg_ne_mp3]
  have hm2 : fileExists (writeFile (writeFile fs (dir ++ "/" ++ id ++ ".jpg")
        (site.asset (coverUrl id token)).content)
      (dir ++ "/" ++ id ++ ".cue") (site.asset (cueUrl id token)).content)
      (dir ++ "/" ++ id ++ ".mp3") = false := by
    rw [fileExists_writeFile, hm1]
    simp [cue_ne_mp3]
  simp only [assetTargets, runAssets,
    download_asset_fetch site (coverUrl id token) _ fs hj s1,
    download_asset_fetch site (cueUrl id token) _ _ hc1 s2,
    download_asset_fetch site (audioUrl id) _ _ hm2 s3]
  simp [writeFile, List.append_assoc]

/-- With all three destinations present, the asset phase is three skips:
no requests, no writes, three notices. -/
theorem runAssets_all_skipped (site : Site) (id token dir : String) (fs : FS)
    (hj : fileExists fs (dir ++ "/" ++ id ++ ".jpg") = true)
    (hc : fileExists fs (dir ++ "/" ++ id ++ ".cue") = true)
    (hm : fileExists fs (dir ++ "/" ++ id ++ ".mp3") = true) :
    runAssets site (assetTargets id token dir) fs =
      ⟨fs, [],
       ["File " ++ (dir ++ "/" ++ id ++ ".jpg") ++ " already exists! Skipping!",
        "File " ++ (dir ++ "/" ++ id ++ ".cue") ++ " already exists! Skipping!",
        "File " ++ (dir ++ "/" ++ id ++ ".mp3") ++ " already exists! Skipping!"],
       none⟩ := by
  simp only [assetTargets, runAssets,
    download_asset_skip site (coverUrl id token) _ fs hj,
    download_asset_skip site (cueUrl id token) _ fs hc,
    download_asset_skip site (audioUrl id) _ fs hm]
  rfl

theorem shelfLoop_eq (items : List ShelfAnchor) (acc : List Audiobook) :
    shelfLoop items acc
      = acc ++ items.map (fun a => ⟨lastSegment a.href, a.title⟩) := by
  induction items generalizing acc with
  | nil => simp [shelfLoop]
  | cons a rest ih => simp [shelfLoop, ih]

theorem coverUrl_has_token (id token : String) :
    containsSubstr (coverUrl id token) ("token=" ++ token) = true := by
  have hsplit : (".jpg?token=" : String) = ".jpg?" ++ "token=" := by decide
  have h : coverUrl id token
      = ("https://tools." ++ BASE_DOMAIN ++ "/pl/cover/" ++ id ++ ".jpg?")
          ++ ("token=" ++ token) := by
    simp only [coverUrl, hsplit, str_append_assoc]
  rw [h]
  exact containsSubstr_append_right _ _

theorem cueUrl_has_token (id token : String) :
    containsSubstr (cueUrl id token) ("token=" ++ token) = true := by
  have hsplit : ("/cue?token=" : String) = "/cue?" ++ "token=" := by decide
  have h : cueUrl id token
      = ("https://fn." ++ BASE_DOMAIN ++ "/pl/app/info/audiobook/" ++ id ++ "/cue?")
          ++ ("token=" ++ token) := by
    simp only [cueUrl, hsplit, str_append_assoc]
  rw [h]
  exact containsSubstr_append_right _ _

/-- When all three asset files already exist, `download_audiobook` issues at
most the detail-page GET, whatever the detail page contains, and leaves the
file list untouched. -/
theorem download_audiobook_all_exist (site : Site) (ab : Audiobook)
    (dest_dir : String) (fs : FS)
    (hj : fileExists fs (dest_dir ++ "/" ++ ab.id ++ "/" ++ ab.id ++ ".jpg") = true)
    (hc : fileExists fs (dest_dir ++ "/" ++ ab.id ++ "/" ++ ab.id ++ ".cue") = true)
    (hm : fileExists fs (dest_dir ++ "/" ++ ab.id ++ "/" ++ ab.id ++ ".mp3") = true) :
    (download_audiobook site ab dest_dir fs).requests
        = [Request.get (detailUrl ab.id)]
    ∧ (download_audiobook site ab dest_dir fs).fs.files = fs.files := by
  cases hA : site.detailAnchor ab.id with
  | none =>
      unfold download_audiobook
      rw [hA]
      exact ⟨rfl, rfl⟩
  | some href =>
      cases hS : endsWithStr (urlparse href).path "/download-sample" with
      | true =>
          unfold download_audiobook
          rw [hA]
          simp [hS]
      | false =>
          cases hq : parse_qsl (urlparse href).query with
          | nil =>
              unfold download_audiobook
              rw [hA]
              simp [hS, hq]
          | cons p rest =>
              obtain ⟨n, t⟩ := p
              cases rest with
              | nil =>
                  rw [download_audiobook_run site ab dest_dir fs href n t hA hS hq]
                  have hj' : fileExists
                      (mkdirExistOk fs (dest_dir ++ "/" ++ ab.id))
                      (dest_dir ++ "/" ++ ab.id ++ "/" ++ ab.id ++ ".jpg") = true := by
                    rw [fileExists_mkdirExistOk]; exact hj
                  have hc' : fileExists
                      (mkdirExistOk fs (dest_dir ++ "/" ++ ab.id))
                      (dest_dir ++ "/" ++ ab.id ++ "/" ++ ab.id ++ ".cue") = true := by
                    rw [fileExists_mkdirExistOk]; exact hc
                  have hm' : fileExists
                      (mkdirExistOk fs (dest_dir ++ "/" ++ ab.id))
                      (dest_dir ++ "/" ++ ab.id ++ "/" ++ ab.id ++ ".mp3") = true := by
                    rw [fileExists_mkdirExistOk]; exact hm
                  rw [runAssets_all_skipped site ab.id t (dest_dir ++ "/" ++ ab.id)
                    (mkdirExistOk fs (dest_dir ++ "/" ++ ab.id)) hj' hc' hm']
                  exact ⟨rfl, by simp [mkdirExistOk_files]⟩
              | cons q rest' =>
                  unfold download_audiobook
                  rw [hA]
                  simp [hS, hq]

/-- On a non-sample page whose query does not have exactly one parameter,
the `[(_, token)] = parse_qsl(...)` destructuring raises before any
filesystem action. -/
theorem download_audiobook_value_error (site : Site) (ab : Audiobook)
    (dest_dir : String) (fs : FS) (href : String)
    (hA : site.detailAnchor ab.id = some href)
    (hS : endsWithStr (urlparse href).path "/download-sample" = false)
    (hq : (parse_qsl (urlparse href).query).length ≠ 1) :
    download_audiobook site ab dest_dir fs
      = ⟨fs, [Request.get (detailUrl ab.id)], [], some "ValueError"⟩ := by
  unfold download_audiobook
  rw [hA]
  simp only [hS, Bool.false_eq_true, if_false]
  cases h : parse_qsl (urlparse href).query with
  | nil => rfl
  | cons p rest =>
      obtain ⟨n, t⟩ := p
      cases rest with
      | nil => rw [h] at hq; simp at hq
      | cons q rest' => rfl

/-! ### The claims -/

/-- C1: for every source URL and destination path, if the destination file
already exists, `_download_asset` emits the skip notice and returns without
performing any network request, leaving the filesystem — and hence the
pre-existing file's contents — unchanged. -/
theorem claim_c1_download_asset_skips_existing (site : Site)
    (url dest_file : String) (fs : FS) (h : fileExists fs dest_file = true) :
    (download_asset site url dest_file fs).fs = fs
    ∧ (download_asset site url dest_file fs).requests = []
    ∧ (download_asset site url dest_file fs).prints
        = ["File " ++ dest_file ++ " already exists! Skipping!"]
    ∧ (download_asset site url dest_file fs).error = none := by
  rw [download_asset_skip site url dest_file fs h]
  exact ⟨rfl, rfl, rfl, rfl⟩

theorem claim_c1_witness :
    (download_asset egSite "u" "dest/123/123.mp3" fullFS).fs = fullFS
    ∧ (download_asset egSite "u" "dest/123/123.mp3" fullFS).requests = []
    ∧ (download_asset egSite "u" "dest/123/123.mp3" fullFS).prints
        = ["File dest/123/123.mp3 already exists! Skipping!"]
    ∧ (download_asset egSite "u" "dest/123/123.mp3" fullFS).error = none :=
  claim_c1_download_asset_skips_existing egSite "u" "dest/123/123.mp3" fullFS
    (by decide)

/-- C2: `login` (from the freshly-constructed client) sets
`is_authenticated` exactly when the marker `"shelf-item"` occurs in the
post-login body; when the marker is absent the entry point issues only the
two login requests — no shelf listing, no downloads — and returns exit code
1, while a run whose download loop completes returns exit code 0. -/
theorem claim_c2_login_marker_and_exit_codes (site : Site) (u p d : String)
    (fs : FS) :
    ((login site u p ⟨false⟩).1.is_authenticated
        = containsSubstr (site.loginResponse u p) loginMarker)
    ∧ (containsSubstr (site.loginResponse u p) loginMarker = false →
        (main_run site u p d fs).exit = some 1
        ∧ (main_run site u p d fs).requests
            = [Request.get loginPageUrl,
               Request.post loginCheckUrl
                 [("_username", u), ("_password", p), ("_remember_me", "1"),
                  ("_failure_path", "login"), ("_token", site.loginFormToken),
                  ("login", "")]])
    ∧ (containsSubstr (site.loginResponse u p) loginMarker = true →
        (downloadLoop site (shelf site).1 d (mkdirExistOk fs d)).error = none →
        (main_run site u p d fs).exit = some 0) := by
  refine ⟨?_, ?_, ?_⟩
  · cases h : containsSubstr (site.loginResponse u p) loginMarker <;>
      simp [login, h]
  · intro h
    simp [main_run, login, h]
  · intro h hloop
    have hb : (shelf site).1 = shelfLoop site.shelfItems [] := rfl
    rw [hb] at hloop
    simp [main_run, login, shelf, h, hloop]

theorem claim_c2_witness :
    (main_run badLoginSite "u" "p" "dest" emptyFS).exit = some 1
    ∧ (main_run badLoginSite "u" "p" "dest" emptyFS).requests
        = [Request.get loginPageUrl,
           Request.post loginCheckUrl
             [("_username", "u"), ("_password", "p"), ("_remember_me", "1"),
              ("_failure_path", "login"), ("_token", "csrf"), ("login", "")]] :=
  (claim_c2_login_marker_and_exit_codes badLoginSite "u" "p" "dest" emptyFS).2.1
    (by decide)

/-- C5: a detail page whose download anchor path ends in the sample suffix
makes `download_audiobook` log the notice and return with the filesystem
exactly as it pre-existed (no assets, no subdirectory), having issued only
the detail-page GET. -/
theorem claim_c5_sample_skipped (site : Site) (ab : Audiobook)
    (dest_dir : String) (fs : FS) (href : String)
    (hA : site.detailAnchor ab.id = some href)
    (hS : endsWithStr (urlparse href).path "/download-sample" = true) :
    (download_audiobook site ab dest_dir fs).fs = fs
    ∧ (download_audiobook site ab dest_dir fs).requests
        = [Request.get (detailUrl ab.id)]
    ∧ (download_audiobook site ab dest_dir fs).prints
        = ["Audiobook " ++ ab.title ++ " is a sample - skipping..."]
    ∧ (download_audiobook site ab dest_dir fs).error = none := by
  unfold download_audiobook
  rw [hA]
  simp [hS]

theorem claim_c5_witness :
    (download_audiobook sampleSite ⟨"123", "Foo"⟩ "dest" emptyFS).fs = emptyFS
    ∧ (download_audiobook sampleSite ⟨"123", "Foo"⟩ "dest" emptyFS).requests
        = [Request.get (detailUrl "123")]
    ∧ (download_audiobook sampleSite ⟨"123", "Foo"⟩ "dest" emptyFS).prints
        = ["Audiobook Foo is a sample - skipping..."]
    ∧ (download_audiobook sampleSite ⟨"123", "Foo"⟩ "dest" emptyFS).error = none :=
  claim_c5_sample_skipped sampleSite ⟨"123", "Foo"⟩ "dest" emptyFS
    "/pl/audiobook/123/download-sample" rfl (by decide)

/-- C8: `shelf` fetches the shelf page and returns one Audiobook per
shelf-item element, in page order; each id is the trailing path segment of
the item's anchor href and each title is the anchor's title attribute. -/
theorem claim_c8_shelf_parses_items (site : Site) :
    (shelf site).1
        = site.shelfItems.map (fun a => ⟨lastSegment a.href, a.title⟩)
    ∧ (shelf site).2 = [Request.get myShelfUrl] :=
  ⟨by simp [shelf, shelfLoop_eq], rfl⟩

/-- C9: when the destination file is absent and the GET answers a 4xx/5xx
status, `_download_asset` raises before the destination is opened: no file
— not even an empty one — is created. -/
theorem claim_c9_http_error_creates_no_file (site : Site)
    (url dest_file : String) (fs : FS)
    (h : fileExists fs dest_file = false)
    (h4 : 400 ≤ (site.asset url).status)
    (h6 : (site.asset url).status < 600) :
    (download_asset site url dest_file fs).error = some "HTTPError"
    ∧ (download_asset site url dest_file fs).fs = fs
    ∧ fileExists (download_asset site url dest_file fs).fs dest_file = false := by
  rw [download_asset_raise site url dest_file fs h ⟨h4, h6⟩]
  exact ⟨rfl, rfl, h⟩

theorem claim_c9_witness :
    (download_asset errSite (coverUrl "123" "abc") "dest/123/123.jpg" emptyFS).error
        = some "HTTPError"
    ∧ (download_asset errSite (coverUrl "123" "abc") "dest/123/123.jpg" emptyFS).fs
        = emptyFS
    ∧ fileExists
        (download_asset errSite (coverUrl "123" "abc") "dest/123/123.jpg" emptyFS).fs
        "dest/123/123.jpg" = false :=
  claim_c9_http_error_creates_no_file errSite (coverUrl "123" "abc")
    "dest/123/123.jpg" emptyFS (by decide) (by decide) (by decide)

/-- C10: sample classification and token extraction both precede the mkdir;
when the query does not have exactly one parameter the ValueError leaves the
destination root untouched: no subdirectory, no files. -/
theorem claim_c10_token_error_no_side_effects (site : Site) (ab : Audiobook)
    (dest_dir : String) (fs : FS) (href : String)
    (hA : site.detailAnchor ab.id = some href)
    (hS : endsWithStr (urlparse href).path "/download-sample" = false)
    (hq : (parse_qsl (urlparse href).query).length ≠ 1) :
    (download_audiobook site ab dest_dir fs).fs = fs
    ∧ (download_audiobook site ab dest_dir fs).error = some "ValueError" := by
  rw [download_audiobook_value_error site ab dest_dir fs href hA hS hq]
  exact ⟨rfl, rfl⟩

theorem claim_c10_witness :
    (download_audiobook twoParamSite ⟨"123", "Foo"⟩ "dest" emptyFS).fs = emptyFS
    ∧ (download_audiobook twoParamSite ⟨"123", "Foo"⟩ "dest" emptyFS).error
        = some "ValueError" :=
  claim_c10_token_error_no_side_effects twoParamSite ⟨"123", "Foo"⟩ "dest" emptyFS
    "/pl/audiobook/123/download?a=1&b=2" rfl (by decide) (by decide)

/-- C4: on a non-sample detail page, a download-link query with zero or with
two-or-more parameters makes `download_audiobook` fail fast with the
destructuring ValueError; with exactly one parameter no such error is
possible (the sole pair's value becomes the token). -/
theorem claim_c4_token_extraction_fail_fast (site : Site) (ab : Audiobook)
    (dest_dir : String) (fs : FS) (href : String)
    (hA : site.detailAnchor ab.id = some href)
    (hS : endsWithStr (urlparse href).path "/download-sample" = false) :
    ((parse_qsl (urlparse href).query).length ≠ 1 →
        (download_audiobook site ab dest_dir fs).error = some "ValueError")
    ∧ (∀ n token, parse_qsl (urlparse href).query = [(n, token)] →
        (download_audiobook site ab dest_dir fs).error ≠ some "ValueError") := by
  constructor
  · intro hq
    rw [download_audiobook_value_error site ab dest_dir fs href hA hS hq]
  · intro n token hq
    rw [download_audiobook_run site ab dest_dir fs href n token hA hS hq]
    exact runAssets_no_valueError site _ _

theorem claim_c4_witness :
    (download_audiobook twoParamSite ⟨"123", "Foo"⟩ "dest" emptyFS).error
        = some "ValueError" :=
  (claim_c4_token_extraction_fail_fast twoParamSite ⟨"123", "Foo"⟩ "dest" emptyFS
      "/pl/audiobook/123/download?a=1&b=2" rfl (by decide)).1 (by decide)

/-- C6: a fresh non-sample download produces exactly the three files
`dest/id/id.jpg`, `dest/id/id.cue`, `dest/id/id.mp3`, appended in the order
cover, cue, audio, inside the id-named subdirectory, with the requests in
the order detail page, cover, cue, audio. -/
theorem claim_c6_layout_and_order (site : Site) (ab : Audiobook)
    (dest_dir : String) (fs : FS) (href n token : String)
    (hA : site.detailAnchor ab.id = some href)
    (hS : endsWithStr (urlparse href).path "/download-sample" = false)
    (hQ : parse_qsl (urlparse href).query = [(n, token)])
    (hj : fileExists fs (dest_dir ++ "/" ++ ab.id ++ "/" ++ ab.id ++ ".jpg") = false)
    (hc : fileExists fs (dest_dir ++ "/" ++ ab.id ++ "/" ++ ab.id ++ ".cue") = false)
    (hm : fileExists fs (dest_dir ++ "/" ++ ab.id ++ "/" ++ ab.id ++ ".mp3") = false)
    (s1 : ¬(400 ≤ (site.asset (coverUrl ab.id token)).status
            ∧ (site.asset (coverUrl ab.id token)).status < 600))
    (s2 : ¬(400 ≤ (site.asset (cueUrl ab.id token)).status
            ∧ (site.asset (cueUrl ab.id token)).status < 600))
    (s3 : ¬(400 ≤ (site.asset (audioUrl ab.id)).status
            ∧ (site.asset (audioUrl ab.id)).status < 600)) :
    (download_audiobook site ab dest_dir fs).fs.files
        = fs.files
          ++ [(dest_dir ++ "/" ++ ab.id ++ "/" ++ ab.id ++ ".jpg",
               (site.asset (coverUrl ab.id token)).content),
              (dest_dir ++ "/" ++ ab.id ++ "/" ++ ab.id ++ ".cue",
               (site.asset (cueUrl ab.id token)).content),
              (dest_dir ++ "/" ++ ab.id ++ "/" ++ ab.id ++ ".mp3",
               (site.asset (audioUrl ab.id)).content)]
    ∧ (download_audiobook site ab dest_dir fs).fs.dirs
        = (mkdirExistOk fs (dest_dir ++ "/" ++ ab.id)).dirs
    ∧ (download_audiobook site ab dest_dir fs).requests
        = [Request.get (detailUrl ab.id), Request.get (coverUrl ab.id token),
           Request.get (cueUrl ab.id token), Request.get (audioUrl ab.id)]
    ∧ (download_audiobook site ab dest_dir fs).error = none := by
  rw [download_audiobook_run site ab dest_dir fs href n token hA hS hQ]
  have hj' : fileExists (mkdirExistOk fs (dest_dir ++ "/" ++ ab.id))
      (dest_dir ++ "/" ++ ab.id ++ "/" ++ ab.id ++ ".jpg") = false := by
    rw [fileExists_mkdirExistOk]; exact hj
  have hc' : fileExists (mkdirExistOk fs (dest_dir ++ "/" ++ ab.id))
      (dest_dir ++ "/" ++ ab.id ++ "/" ++ ab.id ++ ".cue") = false := by
    rw [fileExists_mkdirExistOk]; exact hc
  have hm' : fileExists (mkdirExistOk fs (dest_dir ++ "/" ++ ab.id))
      (dest_dir ++ "/" ++ ab.id ++ "/" ++ ab.id ++ ".mp3") = false := by
    rw [fileExists_mkdirExistOk]; exact hm
  rw [runAssets_fresh site ab.id token (dest_dir ++ "/" ++ ab.id)
    (mkdirExistOk fs (dest_dir ++ "/" ++ ab.id)) hj' hc' hm' s1 s2 s3]
  refine ⟨?_, rfl, rfl, rfl⟩
  rw [mkdirExistOk_files]

theorem claim_c6_witness :
    (download_audiobook egSite ⟨"123", "Foo"⟩ "dest" emptyFS).fs.files
        = [("dest/123/123.jpg", "DATA"), ("dest/123/123.cue", "DATA"),
           ("dest/123/123.mp3", "DATA")]
    ∧ (download_audiobook egSite ⟨"123", "Foo"⟩ "dest" emptyFS).fs.dirs
        = (mkdirExistOk emptyFS "dest/123").dirs
    ∧ (download_audiobook egSite ⟨"123", "Foo"⟩ "dest" emptyFS).requests
        = [Request.get (detailUrl "123"), Request.get (coverUrl "123" "abc"),
           Request.get (cueUrl "123" "abc"), Request.get (audioUrl "123")]
    ∧ (download_audiobook egSite ⟨"123", "Foo"⟩ "dest" emptyFS).error = none :=
  claim_c6_layout_and_order egSite ⟨"123", "Foo"⟩ "dest" emptyFS
    "/pl/audiobook/123/download?token=abc" "token" "abc" rfl (by decide)
    (by decide) (by decide) (by decide) (by decide) (by decide) (by decide)
    (by decide)

/-- C3 counterexample: at a concrete non-sample audiobook with extracted
token "abc", the third asset request is the fixed audio endpoint, which
contains neither the token value nor any token parameter — so it is not
true that each of the three URLs is parameterized with the token. -/
theorem claim_c3_counterexample :
    (download_audiobook egSite ⟨"123", "Foo"⟩ "dest" emptyFS).requests
        = [Request.get (detailUrl "123"), Request.get (coverUrl "123" "abc"),
           Request.get (cueUrl "123" "abc"), Request.get (audioUrl "123")]
    ∧ containsSubstr (audioUrl "123") "abc" = false
    ∧ containsSubstr (audioUrl "123") "token=" = false := by
  decide

/-- C3 (amended): a non-sample download invokes the Asset Downloader exactly
three times — cover, cue, audio in that order — and the cover and cue URLs
carry the extracted token as their query parameter, while the audio URL is
the fixed per-id download endpoint without the token. -/
theorem claim_c3_three_invocations_token_urls (site : Site) (ab : Audiobook)
    (dest_dir : String) (fs : FS) (href n token : String)
    (hA : site.detailAnchor ab.id = some href)
    (hS : endsWithStr (urlparse href).path "/download-sample" = false)
    (hQ : parse_qsl (urlparse href).query = [(n, token)])
    (hj : fileExists fs (dest_dir ++ "/" ++ ab.id ++ "/" ++ ab.id ++ ".jpg") = false)
    (hc : fileExists fs (dest_dir ++ "/" ++ ab.id ++ "/" ++ ab.id ++ ".cue") = false)
    (hm : fileExists fs (dest_dir ++ "/" ++ ab.id ++ "/" ++ ab.id ++ ".mp3") = false)
    (s1 : ¬(400 ≤ (site.asset (coverUrl ab.id token)).status
            ∧ (site.asset (coverUrl ab.id token)).status < 600))
    (s2 : ¬(400 ≤ (site.asset (cueUrl ab.id token)).status
            ∧ (site.asset (cueUrl ab.id token)).status < 600))
    (s3 : ¬(400 ≤ (site.asset (audioUrl ab.id)).status
            ∧ (site.asset (audioUrl ab.id)).status < 600)) :
    (assetTargets ab.id token (dest_dir ++ "/" ++ ab.id)).length = 3
    ∧ (download_audiobook site ab dest_dir fs).requests
        = [Request.get (detailUrl ab.id), Request.get (coverUrl ab.id token),
           Request.get (cueUrl ab.id token), Request.get (audioUrl ab.id)]
    ∧ containsSubstr (coverUrl ab.id token) ("token=" ++ token) = true
    ∧ containsSubstr (cueUrl ab.id token) ("token=" ++ token) = true := by
  rw [download_audiobook_run site ab dest_dir fs href n token hA hS hQ]
  have hj' : fileExists (mkdirExistOk fs (dest_dir ++ "/" ++ ab.id))
      (dest_dir ++ "/" ++ ab.id ++ "/" ++ ab.id ++ ".jpg") = false := by
    rw [fileExists_mkdirExistOk]; exact hj
  have hc' : fileExists (mkdirExistOk fs (dest_dir ++ "/" ++ ab.id))
      (dest_dir ++ "/" ++ ab.id ++ "/" ++ ab.id ++ ".cue") = false := by
    rw [fileExists_mkdirExistOk]; exact hc
  have hm' : fileExists (mkdirExistOk fs (dest_dir ++ "/" ++ ab.id))
      (dest_dir ++ "/" ++ ab.id ++ "/" ++ ab.id ++ ".mp3") = false := by
    rw [fileExists_mkdirExistOk]; exact hm
  rw [runAssets_fresh site ab.id token (dest_dir ++ "/" ++ ab.id)
    (mkdirExistOk fs (dest_dir ++ "/" ++ ab.id)) hj' hc' hm' s1 s2 s3]
  exact ⟨rfl, rfl, coverUrl_has_token ab.id token, cueUrl_has_token ab.id token⟩

theorem claim_c3_witness :
    (assetTargets "123" "abc" "dest/123").length = 3
    ∧ (download_audiobook egSite ⟨"123", "Foo"⟩ "dest" emptyFS).requests
        = [Request.get (detailUrl "123"), Request.get (coverUrl "123" "abc"),
           Request.get (cueUrl "123" "abc"), Request.get (audioUrl "123")]
    ∧ containsSubstr (coverUrl "123" "abc") ("token=" ++ "abc") = true
    ∧ containsSubstr (cueUrl "123" "abc") ("token=" ++ "abc") = true :=
  claim_c3_three_invocations_token_urls egSite ⟨"123", "Foo"⟩ "dest" emptyFS
    "/pl/audiobook/123/download?token=abc" "token" "abc" rfl (by decide)
    (by decide) (by decide) (by decide) (by decide) (by decide) (by decide)
    (by decide)

/-- C7 counterexample: with all three asset files already on disk, re-running
`download_audiobook` still performs a network request — the detail-page GET
— so the request count for the audiobook is one, not zero. -/
theorem claim_c7_counterexample :
    (download_audiobook egSite ⟨"123", "Foo"⟩ "dest" fullFS).requests
        = [Request.get (detailUrl "123")]
    ∧ (download_audiobook egSite ⟨"123", "Foo"⟩ "dest" fullFS).requests
        ≠ [] := by
  decide

/-- C7 (amended): re-running `download_audiobook` with all three asset files
already present performs zero asset-download requests — the only request
issued is the single detail-page GET — and leaves the file list unchanged. -/
theorem claim_c7_rerun_only_detail_get (site : Site) (ab : Audiobook)
    (dest_dir : String) (fs : FS)
    (hj : fileExists fs (dest_dir ++ "/" ++ ab.id ++ "/" ++ ab.id ++ ".jpg") = true)
    (hc : fileExists fs (dest_dir ++ "/" ++ ab.id ++ "/" ++ ab.id ++ ".cue") = true)
    (hm : fileExists fs (dest_dir ++ "/" ++ ab.id ++ "/" ++ ab.id ++ ".mp3") = true) :
    (download_audiobook site ab dest_dir fs).requests
        = [Request.get (detailUrl ab.id)]
    ∧ (download_audiobook site ab dest_dir fs).fs.files = fs.files :=
  download_audiobook_all_exist site ab dest_dir fs hj hc hm

theorem claim_c7_witness :
    (download_audiobook egSite ⟨"123", "Foo"⟩ "dest" fullFS).requests
        = [Request.get (detailUrl "123")]
    ∧ (download_audiobook egSite ⟨"123", "Foo"⟩ "dest" fullFS).fs.files
        = fullFS.files :=
  claim_c7_rerun_only_detail_get egSite ⟨"123", "Foo"⟩ "dest" fullFS
    (by decide) (by decide) (by decide)
